import Mathlib

/-!
Verification of the curve client chunk-request retry engine
(`src/client/chunk_closure.cpp`, `src/client/request_closure.h`) and the
metaserver `InflightThrottle` (`curvefs/src/metaserver/inflight_throttle.h`).

The C++ code is shallowly embedded: every external collaborator call
(metadata cache, transport, clock, random source) is modelled by an
environment record `Env` holding the value that call would return during the
one completed attempt under analysis, and every observable side effect
(sleeps, retry dispatch, completion invocation, cache updates) is recorded in
an `Effects` record threaded through the state.  Machine integers (`uint64_t`)
are modelled as `Nat` with explicit reduction modulo `2 ^ 64` exactly where
the C++ arithmetic can wrap.
-/

namespace CurveClient

/-- `2 ^ 64` (as a literal, for `omega`), the modulus of `uint64_t`
arithmetic. -/
def U64 : Nat := 18446744073709551616

/-- `uint64_t` subtraction `a - b` (wraps modulo `2 ^ 64`). -/
def u64sub (a b : Nat) : Nat := (a % U64 + (U64 - b % U64)) % U64

/-! ### Status-code constants

Modelled from the spec: the numeric values of the chunkserver protocol status
enum (`CHUNK_OP_STATUS` of chunk.proto) and of the transport error codes
(`brpc::ERPCTIMEDOUT`, `ETIMEDOUT`) are defined outside the files under
`src/`; the engine compares them as plain integers (`status_`,
`cntlstatus_`), with `0` meaning transport success and application status
`SUCCESS = 0` meaning operation success. -/

def CHUNK_OP_STATUS_SUCCESS : Int := 0
def CHUNK_OP_STATUS_REDIRECTED : Int := 1
def CHUNK_OP_STATUS_COPYSET_NOTEXIST : Int := 2
def CHUNK_OP_STATUS_CHUNK_NOTEXIST : Int := 3
def CHUNK_OP_STATUS_FAILURE_UNKNOWN : Int := 4
def CHUNK_OP_STATUS_INVALID_REQUEST : Int := 5
def CHUNK_OP_STATUS_CRC_FAIL : Int := 6
def CHUNK_OP_STATUS_CHUNK_EXIST : Int := 7
def CHUNK_OP_STATUS_OVERLOAD : Int := 8
def CHUNK_OP_STATUS_BACKWARD : Int := 9
def CHUNK_OP_STATUS_EPOCH_TOO_OLD : Int := 10

/-- Modelled from the spec: brpc's RPC-timeout transport error code. -/
def brpcERPCTIMEDOUT : Int := 1008

/-- Modelled from the spec: the POSIX `ETIMEDOUT` errno. -/
def ETIMEDOUT : Int := 110

attribute [simp] CHUNK_OP_STATUS_SUCCESS CHUNK_OP_STATUS_REDIRECTED
  CHUNK_OP_STATUS_COPYSET_NOTEXIST CHUNK_OP_STATUS_CHUNK_NOTEXIST
  CHUNK_OP_STATUS_FAILURE_UNKNOWN CHUNK_OP_STATUS_INVALID_REQUEST
  CHUNK_OP_STATUS_CRC_FAIL CHUNK_OP_STATUS_CHUNK_EXIST
  CHUNK_OP_STATUS_OVERLOAD CHUNK_OP_STATUS_BACKWARD
  CHUNK_OP_STATUS_EPOCH_TOO_OLD brpcERPCTIMEDOUT ETIMEDOUT

/-! ### Configuration (`FailureRequestOption`, `BackoffParam`) -/

/-- Per-client failure/retry configuration (`FailureRequestOption`). -/
structure FailureRequestOption where
  chunkserverOPMaxRetry : Nat
  chunkserverOPRetryIntervalUS : Nat
  chunkserverMaxRetrySleepIntervalUS : Nat
  chunkserverRPCTimeoutMS : Nat
  chunkserverMaxRPCTimeoutMS : Nat
  chunkserverMinRetryTimesForceTimeoutBackoff : Nat
  chunkserverSlowRequestThresholdMS : Nat
deriving DecidableEq, Repr

/-- Exponent saturation bounds (`ClientClosure::BackoffParam`). -/
structure BackoffParam where
  maxTimeoutPow : Nat
  maxOverloadPow : Nat
deriving DecidableEq, Repr

/-! ### Backoff calculator (`ClientClosure::OverLoadBackOff`,
`ClientClosure::TimeoutBackOff`) -/

/-- `ClientClosure::OverLoadBackOff(currentRetryTimes)`.  The draw of
`std::rand()` is passed in as `rand`.  All intermediate arithmetic is
`uint64_t`: in the source `random_time -= nextsleeptime / 10` wraps below
zero and the following `nextsleeptime += random_time` wraps back. -/
def OverLoadBackOff (bp : BackoffParam) (fo : FailureRequestOption)
    (currentRetryTimes rand : Nat) : Nat :=
  let curpowTime := min currentRetryTimes bp.maxOverloadPow
  let nextsleeptime :=
    (fo.chunkserverOPRetryIntervalUS * (1 <<< curpowTime)) % U64
  let random_time := rand % (nextsleeptime / 5 + 1)
  let random_time2 := u64sub random_time (nextsleeptime / 10)
  let nextsleeptime2 := (nextsleeptime + random_time2) % U64
  let nextsleeptime3 := min nextsleeptime2 fo.chunkserverMaxRetrySleepIntervalUS
  max nextsleeptime3 fo.chunkserverOPRetryIntervalUS

/-- `ClientClosure::TimeoutBackOff(currentRetryTimes)`. -/
def TimeoutBackOff (bp : BackoffParam) (fo : FailureRequestOption)
    (currentRetryTimes : Nat) : Nat :=
  let curpowTime := min currentRetryTimes bp.maxTimeoutPow
  let nextTimeout :=
    (fo.chunkserverRPCTimeoutMS * (1 <<< curpowTime)) % U64
  let nextTimeout2 := min nextTimeout fo.chunkserverMaxRPCTimeoutMS
  max nextTimeout2 fo.chunkserverRPCTimeoutMS

/-! ### Data model -/

/-- `OpType`: the seven chunk operations. -/
inductive OpType
  | READ
  | WRITE
  | READ_SNAP
  | DELETE_SNAP
  | GET_CHUNK_INFO
  | CREATE_CLONE
  | RECOVER_CHUNK
deriving DecidableEq, Repr

/-- Unstable-health classification returned by
`UnstableHelper::GetCurrentUnstableState`. -/
inductive UnstableState
  | NoUnstable
  | ServerUnstable
  | ChunkServerUnstable
deriving DecidableEq, Repr

/-- The immutable inputs of one closure invocation: configuration plus the
fields of `RequestContext` / `ClientClosure` that the completed attempt never
writes (`optype_`, `chunkserverID_`, `rawlength_`). -/
structure Ctx where
  fo : FailureRequestOption
  bp : BackoffParam
  optype : OpType
  chunkserverID : Nat
  rawlength : Nat
deriving DecidableEq, Repr

/-- The environment of one completed attempt: what the transport reported and
what each external collaborator (metadata cache, clock, random source) would
answer if called.  `parseResult` is the result of `PeerAddr::Parse` on the
redirect hint (`none` = parse failure); redirect hint strings are abstracted
to `Nat` tokens since only `Parse` consumes them. -/
structure Env where
  /-- `cntl_->ErrorCode()`; `0` means the transport succeeded. -/
  cntlErrorCode : Int
  /-- `GetResponseStatus()`, the application status of the reply. -/
  respStatus : Int
  /-- the redirect hint (`response_->redirect()` when `has_redirect()`). -/
  respRedirect : Option Nat
  /-- result of `PeerAddr::Parse` on the hint: the parsed address, if any. -/
  parseResult : Option Nat
  /-- return value of `metaCache_->UpdateLeader`. -/
  updateLeaderRet : Int
  /-- `metaCache_->GetLeader` (no authoritative refresh): leader id on
  success. -/
  getLeaderRet : Option Nat
  /-- `metaCache_->GetLeader` with authoritative refresh: leader id on
  success. -/
  refreshGetLeaderRet : Option Nat
  /-- `metaCache_->IsLeaderMayChange(lpid, cpid)`. -/
  isLeaderMayChange : Bool
  /-- `UnstableHelper::GetCurrentUnstableState`. -/
  unstableState : UnstableState
  /-- return value of `metaCache_->SetServerUnstable`. -/
  setServerUnstableRet : Int
  /-- `metaCache_->GetLatestFileSn()`. -/
  latestFileSn : Nat
  /-- the draw of `std::rand()` inside `OverLoadBackOff`. -/
  rand : Nat
  /-- `TimeUtility::GetTimeofDayMs()` during `OnRetry`. -/
  nowMs : Nat
  /-- `cntl_->response_attachment()` as a byte list. -/
  responseAttachment : List Nat
  /-- the `chunk_sn` entries of a `GetChunkInfoResponse`. -/
  chunkSnList : List Nat
deriving DecidableEq, Repr

/-- Observable side effects of one closure invocation. -/
structure Effects where
  /-- `SendRetryRequest()` was invoked. -/
  sendRetryCalled : Bool
  /-- the completion continuation `done_->Run()` was invoked. -/
  doneRun : Bool
  /-- arguments of every `bthread_usleep` call, in order. -/
  sleepCalls : List Nat
  /-- argument of `metaCache_->UpdateLeader`, if it was called. -/
  updateLeaderArg : Option Nat
  /-- `RefreshLeader()` (authoritative `GetLeader`) was invoked. -/
  refreshLeaderCalled : Bool
  /-- `metaCache_->SetServerUnstable` was invoked. -/
  setServerUnstableCalled : Bool
  /-- `metaCache_->SetChunkserverUnstable` was invoked. -/
  setChunkserverUnstableCalled : Bool
  /-- `UnstableHelper::ClearTimeout` was invoked. -/
  clearTimeoutCalled : Bool
  /-- `UnstableHelper::IncreTimeout` was invoked. -/
  increTimeoutCalled : Bool
deriving DecidableEq, Repr

/-- The mutable per-request state (`RequestClosure` fields plus the mutable
`RequestContext` fields and the closure's `retryDirectly_` flag), together
with the effect log. -/
structure CState where
  /-- `errcode_` of `RequestClosure` (initially `-1`). -/
  errcode : Int
  /-- `retryTimes_` of `RequestClosure`. -/
  retryTimes : Nat
  /-- `slowRequest_` of `RequestClosure`. -/
  slowRequest : Bool
  /-- `nextTimeoutMS_` of `RequestClosure`. -/
  nextTimeoutMS : Nat
  /-- `createdMS_` of `RequestClosure`. -/
  createdMS : Nat
  /-- `seq_` of `RequestContext`. -/
  seq : Nat
  /-- `readData_` of `RequestContext` as a byte list. -/
  readData : List Nat
  /-- `chunkinfodetail_->chunkSn` accumulator of `RequestContext`. -/
  chunkInfoSn : List Nat
  /-- `retryDirectly_` of `ClientClosure`. -/
  retryDirectly : Bool
  eff : Effects
deriving DecidableEq, Repr

/-- `butil::IOBuf::resize(n, 0)`: truncate to `n` bytes or extend with zero
bytes up to length `n`. -/
def resizeBuf (buf : List Nat) (n : Nat) : List Nat :=
  if n ≤ buf.length then buf.take n
  else buf ++ List.replicate (n - buf.length) 0

/-! ### The retry engine (`ClientClosure` and its per-operation subclasses) -/

namespace ClientClosure

/-- `ClientClosure::RefreshLeader`: authoritative
`GetLeader(..., refresh = true)`; on success set
`retryDirectly_ = (leaderId != chunkserverID_)`, on failure only log. -/
def RefreshLeader (ctx : Ctx) (env : Env) (st : CState) : CState :=
  let st1 := { st with eff.refreshLeaderCalled := true }
  match env.refreshGetLeaderRet with
  | none => st1
  | some leaderId =>
      { st1 with retryDirectly := decide (leaderId ≠ ctx.chunkserverID) }

/-- `ClientClosure::UpdateLeaderWithRedirectInfo(leaderInfo)`: parse the hint,
install it with `UpdateLeader`, re-read the leader with `GetLeader`; on full
success set `retryDirectly_` and return `0`, otherwise return `-1`. -/
def UpdateLeaderWithRedirectInfo (ctx : Ctx) (env : Env) (leaderInfo : Nat)
    (st : CState) : Int × CState :=
  match env.parseResult with
  | none => (-1, st)
  | some addr =>
      let st1 := { st with eff.updateLeaderArg := some addr }
      if env.updateLeaderRet ≠ 0 then (-1, st1)
      else
        match env.getLeaderRet with
        | none => (-1, st1)
        | some leaderId =>
            (0, { st1 with
                    retryDirectly := decide (leaderId ≠ ctx.chunkserverID) })

/-- `ClientClosure::OnRedirected` (and the identically structured
`GetChunkInfoClosure::OnRedirected`, which reads the hint from the typed
reply): try the hint, fall back to `RefreshLeader`. -/
def OnRedirected (ctx : Ctx) (env : Env) (st : CState) : CState :=
  match env.respRedirect with
  | some info =>
      let r := UpdateLeaderWithRedirectInfo ctx env info st
      if r.1 = 0 then r.2 else RefreshLeader ctx env r.2
  | none => RefreshLeader ctx env st

/-- `ClientClosure::OnCopysetNotExist`: authoritative leader refresh. -/
def OnCopysetNotExist (ctx : Ctx) (env : Env) (st : CState) : CState :=
  RefreshLeader ctx env st

/-- `ClientClosure::OnBackward`: rewrite the request sequence number to
`metaCache_->GetLatestFileSn()`. -/
def OnBackward (env : Env) (st : CState) : CState :=
  { st with seq := env.latestFileSn }

/-- `OnSuccess`: `SetFailed(0)` plus the per-operation override
(`ReadChunkClosure` / `ReadChunkSnapClosure` install the attachment,
`GetChunkInfoClosure` appends the `chunk_sn` entries). -/
def OnSuccess (ctx : Ctx) (env : Env) (st : CState) : CState :=
  let st1 := { st with errcode := 0 }
  match ctx.optype with
  | OpType.READ => { st1 with readData := env.responseAttachment }
  | OpType.READ_SNAP => { st1 with readData := env.responseAttachment }
  | OpType.GET_CHUNK_INFO =>
      { st1 with chunkInfoSn := st1.chunkInfoSn ++ env.chunkSnList }
  | _ => st1

/-- `OnChunkNotExist`: `SetFailed(status_)`; the `ReadChunkClosure` override
then runs `SetFailed(0)` and `readData_.resize(rawlength_, 0)` (hole
semantics). -/
def OnChunkNotExist (ctx : Ctx) (status : Int) (st : CState) : CState :=
  let st1 := { st with errcode := status }
  match ctx.optype with
  | OpType.READ =>
      { st1 with errcode := 0, readData := resizeBuf st1.readData ctx.rawlength }
  | _ => st1

/-- `ClientClosure::OnInvalidRequest`: `SetFailed(status_)`. -/
def OnInvalidRequest (status : Int) (st : CState) : CState :=
  { st with errcode := status }

/-- `ClientClosure::OnChunkExist`: `SetFailed(status_)`. -/
def OnChunkExist (status : Int) (st : CState) : CState :=
  { st with errcode := status }

/-- `ClientClosure::OnEpochTooOld`: `SetFailed(status_)`. -/
def OnEpochTooOld (status : Int) (st : CState) : CState :=
  { st with errcode := status }

/-- `ClientClosure::ProcessUnstableState`: dispatch on the health tracker's
classification; in the `NoUnstable` branch refresh the leader. -/
def ProcessUnstableState (ctx : Ctx) (env : Env) (st : CState) : CState :=
  match env.unstableState with
  | UnstableState.ServerUnstable =>
      let st1 := { st with eff.setServerUnstableCalled := true }
      if env.setServerUnstableRet ≠ 0 then
        { st1 with eff.setChunkserverUnstableCalled := true }
      else st1
  | UnstableState.ChunkServerUnstable =>
      { st with eff.setChunkserverUnstableCalled := true }
  | UnstableState.NoUnstable => RefreshLeader ctx env st

/-- `ClientClosure::OnRpcFailed`: on RPC timeout bump the chunkserver's
timeout counter, then run the unstable-state dispatch.  (The caller records
`status_ = cntl_->ErrorCode()`.) -/
def OnRpcFailed (ctx : Ctx) (env : Env) (st : CState) : CState :=
  let st1 :=
    if env.cntlErrorCode = brpcERPCTIMEDOUT then
      { st with eff.increTimeoutCalled := true }
    else st
  ProcessUnstableState ctx env st1

/-- `ClientClosure::PreProcessBeforeRetry(rpcstatus, cntlstatus)`: the
timeout branch sets the next RPC timeout and does not sleep; the overload
branch sleeps `OverLoadBackOff`; otherwise sleep the base retry interval
(divided by 10 on a redirect, zero when retrying directly), invoking the
sleep primitive only when nonzero. -/
def PreProcessBeforeRetry (ctx : Ctx) (env : Env) (rpcstatus cntlstatus : Int)
    (st : CState) : CState :=
  if cntlstatus = brpcERPCTIMEDOUT ∨ cntlstatus = ETIMEDOUT then
    let retriedTimes := st.retryTimes
    let nextTimeout :=
      if retriedTimes < ctx.fo.chunkserverMinRetryTimesForceTimeoutBackoff ∧
          env.isLeaderMayChange = true then
        ctx.fo.chunkserverRPCTimeoutMS
      else
        TimeoutBackOff ctx.bp ctx.fo retriedTimes
    { st with nextTimeoutMS := nextTimeout }
  else if rpcstatus = CHUNK_OP_STATUS_OVERLOAD then
    let nextsleeptime := OverLoadBackOff ctx.bp ctx.fo st.retryTimes env.rand
    { st with eff.sleepCalls := st.eff.sleepCalls ++ [nextsleeptime] }
  else
    let nextSleepUS : Nat :=
      if st.retryDirectly = true then 0
      else if rpcstatus = CHUNK_OP_STATUS_REDIRECTED then
        ctx.fo.chunkserverOPRetryIntervalUS / 10
      else ctx.fo.chunkserverOPRetryIntervalUS
    if nextSleepUS ≠ 0 then
      { st with eff.sleepCalls := st.eff.sleepCalls ++ [nextSleepUS] }
    else st

/-- `ClientClosure::OnRetry`: if the retry budget is exhausted, latch the
error to the last status and invoke the completion; otherwise mark a slow
request once, run the pre-retry adjustment and re-send. -/
def OnRetry (ctx : Ctx) (env : Env) (status cntlstatus : Int)
    (st : CState) : CState :=
  if ctx.fo.chunkserverOPMaxRetry ≤ st.retryTimes then
    { st with errcode := status, eff.doneRun := true }
  else
    let st1 :=
      if st.slowRequest = false ∧
          ctx.fo.chunkserverSlowRequestThresholdMS <
            u64sub env.nowMs st.createdMS then
        { st with slowRequest := true }
      else st
    let st2 := PreProcessBeforeRetry ctx env status cntlstatus st1
    { st2 with eff.sendRetryCalled := true }

/-- The application-status switch of `ClientClosure::Run` (transport
succeeded): returns the `needRetry` flag and the state after the
per-outcome handler. -/
def dispatchOutcome (ctx : Ctx) (env : Env) (st : CState) : Bool × CState :=
  let status := env.respStatus
  if status = CHUNK_OP_STATUS_SUCCESS then (false, OnSuccess ctx env st)
  else if status = CHUNK_OP_STATUS_REDIRECTED then
    (true, OnRedirected ctx env st)
  else if status = CHUNK_OP_STATUS_COPYSET_NOTEXIST then
    (true, OnCopysetNotExist ctx env st)
  else if status = CHUNK_OP_STATUS_CHUNK_NOTEXIST then
    (false, OnChunkNotExist ctx status st)
  else if status = CHUNK_OP_STATUS_INVALID_REQUEST then
    (false, OnInvalidRequest status st)
  else if status = CHUNK_OP_STATUS_BACKWARD then
    (if ctx.optype = OpType.WRITE then (true, OnBackward env st)
     else (false, st))
  else if status = CHUNK_OP_STATUS_CHUNK_EXIST then
    (false, OnChunkExist status st)
  else if status = CHUNK_OP_STATUS_EPOCH_TOO_OLD then
    (false, OnEpochTooOld status st)
  else (true, st)

/-- `ClientClosure::Run`: the unified completion entry point.  On transport
failure run `OnRpcFailed` and retry; otherwise clear the timeout counter,
dispatch on the application status, and either retry (releasing the done
guard into `OnRetry`) or let the guard invoke the completion. -/
def Run (ctx : Ctx) (env : Env) (st0 : CState) : CState :=
  if env.cntlErrorCode ≠ 0 then
    let st := OnRpcFailed ctx env st0
    OnRetry ctx env env.cntlErrorCode env.cntlErrorCode st
  else
    let st1 := { st0 with eff.clearTimeoutCalled := true }
    let d := dispatchOutcome ctx env st1
    if d.1 = true then OnRetry ctx env env.respStatus env.cntlErrorCode d.2
    else { d.2 with eff.doneRun := true }

end ClientClosure

/-- The last observed status of an attempt (`status_` at the end of
`ClientClosure::Run`): the transport error code on transport failure,
otherwise the application status. -/
def statusOf (env : Env) : Int :=
  if env.cntlErrorCode ≠ 0 then env.cntlErrorCode else env.respStatus

/-- The retryable-outcome predicate (`needRetry` of `ClientClosure::Run`,
matching the spec's retryable set: RpcFailed, Redirected, CopysetNotExist,
Backward-on-Write, Overload, Unknown). -/
def needRetryOf (ctx : Ctx) (env : Env) : Bool :=
  if env.cntlErrorCode ≠ 0 then true
  else if env.respStatus = CHUNK_OP_STATUS_SUCCESS then false
  else if env.respStatus = CHUNK_OP_STATUS_REDIRECTED then true
  else if env.respStatus = CHUNK_OP_STATUS_COPYSET_NOTEXIST then true
  else if env.respStatus = CHUNK_OP_STATUS_CHUNK_NOTEXIST then false
  else if env.respStatus = CHUNK_OP_STATUS_INVALID_REQUEST then false
  else if env.respStatus = CHUNK_OP_STATUS_BACKWARD then
    decide (ctx.optype = OpType.WRITE)
  else if env.respStatus = CHUNK_OP_STATUS_CHUNK_EXIST then false
  else if env.respStatus = CHUNK_OP_STATUS_EPOCH_TOO_OLD then false
  else true

/-- The pre-jitter overload sleep `s = base * 2 ^ min(n, maxOverloadPow)`
(spec §4.1, exact-arithmetic form). -/
def overloadBase (bp : BackoffParam) (fo : FailureRequestOption) (n : Nat) : Nat :=
  fo.chunkserverOPRetryIntervalUS * 2 ^ min n bp.maxOverloadPow

/-- The jitter draw `r = rand % (s / 5 + 1)` of `OverLoadBackOff`. -/
def overloadDraw (bp : BackoffParam) (fo : FailureRequestOption)
    (n rand : Nat) : Nat :=
  rand % (overloadBase bp fo n / 5 + 1)

/-- The pre-retry sleep of the generic (neither-timeout-nor-overload) branch
of `PreProcessBeforeRetry`: zero when retrying directly, otherwise the base
retry interval, divided by 10 on a redirect. -/
def genericRetrySleep (fo : FailureRequestOption) (retryDirectly : Bool)
    (rpcstatus : Int) : Nat :=
  if retryDirectly = true then 0
  else if rpcstatus = CHUNK_OP_STATUS_REDIRECTED then
    fo.chunkserverOPRetryIntervalUS / 10
  else fo.chunkserverOPRetryIntervalUS

/-! ### `InflightThrottle` (curvefs metaserver) -/

/-- `curvefs::metaserver::InflightThrottle`: a bounded in-flight counter.
The atomic `uint64_t` counter is modelled as a `Nat` below `2 ^ 64`. -/
structure InflightThrottle where
  inflightRequestCount : Nat
  maxInflightRequest : Nat
deriving DecidableEq, Repr

namespace InflightThrottle

/-- The constructor `InflightThrottle(maxInflight)`. -/
def mkThrottle (maxInflight : Nat) : InflightThrottle :=
  { inflightRequestCount := 0, maxInflightRequest := maxInflight }

/-- `InflightThrottle::IsOverLoad`. -/
def IsOverLoad (t : InflightThrottle) : Bool :=
  if t.inflightRequestCount ≤ t.maxInflightRequest then false else true

/-- `InflightThrottle::Increment` (`fetch_add(1)` on a `uint64_t`). -/
def Increment (t : InflightThrottle) : InflightThrottle :=
  { t with inflightRequestCount := (t.inflightRequestCount + 1) % U64 }

/-- `InflightThrottle::Decrement` (`fetch_sub(1)` on a `uint64_t`). -/
def Decrement (t : InflightThrottle) : InflightThrottle :=
  { t with inflightRequestCount := u64sub t.inflightRequestCount 1 }

end InflightThrottle

/-! ### Concrete configurations and attempt environments

Used by the witness and counterexample theorems below. -/

/-- A concrete `FailureRequestOption` (curve's default-like values). -/
def foW : FailureRequestOption :=
  { chunkserverOPMaxRetry := 50
    chunkserverOPRetryIntervalUS := 100000
    chunkserverMaxRetrySleepIntervalUS := 8000000
    chunkserverRPCTimeoutMS := 1000
    chunkserverMaxRPCTimeoutMS := 64000
    chunkserverMinRetryTimesForceTimeoutBackoff := 5
    chunkserverSlowRequestThresholdMS := 45000 }

/-- A concrete `BackoffParam`. -/
def bpW : BackoffParam := { maxTimeoutPow := 6, maxOverloadPow := 8 }

/-- A concrete read-request context. -/
def ctxW : Ctx :=
  { fo := foW, bp := bpW, optype := OpType.READ, chunkserverID := 42
    rawlength := 8192 }

/-- A concrete write-request context. -/
def ctxWr : Ctx := { ctxW with optype := OpType.WRITE }

/-- An empty effect log (state at the start of a completed attempt). -/
def effW : Effects :=
  { sendRetryCalled := false, doneRun := false, sleepCalls := []
    updateLeaderArg := none, refreshLeaderCalled := false
    setServerUnstableCalled := false, setChunkserverUnstableCalled := false
    clearTimeoutCalled := false, increTimeoutCalled := false }

/-- A fresh request state (`RequestClosure` defaults: `errcode_ = -1`,
`retryTimes_ = 0`). -/
def stW : CState :=
  { errcode := -1, retryTimes := 0, slowRequest := false
    nextTimeoutMS := 1000, createdMS := 0, seq := 7, readData := []
    chunkInfoSn := [], retryDirectly := false, eff := effW }

/-- `stW` with the retry budget already used up. -/
def stMax : CState := { stW with retryTimes := 50 }

/-- A benign environment: transport OK, application SUCCESS. -/
def envBase : Env :=
  { cntlErrorCode := 0, respStatus := 0, respRedirect := none
    parseResult := none, updateLeaderRet := 0, getLeaderRet := none
    refreshGetLeaderRet := none, isLeaderMayChange := false
    unstableState := UnstableState.NoUnstable, setServerUnstableRet := 0
    latestFileSn := 0, rand := 0, nowMs := 0, responseAttachment := []
    chunkSnList := [] }

/-- Environment: transport RPC timeout. -/
def envTimeout : Env := { envBase with cntlErrorCode := brpcERPCTIMEDOUT }

/-- Environment: reply CHUNK_NOTEXIST. -/
def envNotExist : Env :=
  { envBase with respStatus := CHUNK_OP_STATUS_CHUNK_NOTEXIST }

/-- Environment: reply BACKWARD, latest file sequence number 33. -/
def envBackward : Env :=
  { envBase with respStatus := CHUNK_OP_STATUS_BACKWARD, latestFileSn := 33 }

/-- Environment: reply REDIRECTED with a hint that parses to address 77;
`UpdateLeader` succeeds and `GetLeader` then returns chunkserver 7. -/
def envRedirect : Env :=
  { envBase with
    respStatus := CHUNK_OP_STATUS_REDIRECTED
    respRedirect := some 5
    parseResult := some 77
    updateLeaderRet := 0
    getLeaderRet := some 7 }

/-- Environment: reply REDIRECTED with a hint whose parse fails; the
authoritative refresh then resolves leader 9. -/
def envBadHint : Env :=
  { envBase with
    respStatus := CHUNK_OP_STATUS_REDIRECTED
    respRedirect := some 5
    parseResult := none
    refreshGetLeaderRet := some 9 }

/-- A small configuration exposing the integer-division jitter asymmetry of
`OverLoadBackOff` (base sleep 15 us). -/
def fo5 : FailureRequestOption :=
  { foW with
    chunkserverOPRetryIntervalUS := 15
    chunkserverMaxRetrySleepIntervalUS := 1000000000 }

/-! ## Theorems -/

/-- Helper: the `uint64_t` product inside the backoff calculators does not
wrap when the saturated exponent keeps it below `2 ^ 64`. -/
theorem backoff_prod_eq (base p m : Nat) (h : base * 2 ^ p < U64) :
    (base * (1 <<< min m p)) % U64 = base * 2 ^ min m p := by
  rw [Nat.one_shiftLeft]
  apply Nat.mod_eq_of_lt
  calc base * 2 ^ min m p
      ≤ base * 2 ^ p :=
        Nat.mul_le_mul (le_refl _)
          (Nat.pow_le_pow_right (by norm_num) (min_le_right _ _))
    _ < U64 := h

/-- C4: `TimeoutBackOff(n)` equals
`base_timeout_ms * 2 ^ min(n, maxTimeoutPow)` clamped to
`[base_timeout_ms, max_timeout_ms]`; the result always lies in that interval
and is monotonically nondecreasing in `n` (assuming `base ≤ max` and that the
configured `maxTimeoutPow` keeps the shift from overflowing). -/
theorem timeoutBackOff_correct (bp : BackoffParam) (fo : FailureRequestOption)
    (hbm : fo.chunkserverRPCTimeoutMS ≤ fo.chunkserverMaxRPCTimeoutMS)
    (hnov : fo.chunkserverRPCTimeoutMS * 2 ^ bp.maxTimeoutPow < U64)
    (n : Nat) :
    TimeoutBackOff bp fo n =
      max (min (fo.chunkserverRPCTimeoutMS * 2 ^ min n bp.maxTimeoutPow)
            fo.chunkserverMaxRPCTimeoutMS)
          fo.chunkserverRPCTimeoutMS
    ∧ fo.chunkserverRPCTimeoutMS ≤ TimeoutBackOff bp fo n
    ∧ TimeoutBackOff bp fo n ≤ fo.chunkserverMaxRPCTimeoutMS
    ∧ TimeoutBackOff bp fo n ≤ TimeoutBackOff bp fo (n + 1) := by
  have hval : ∀ m : Nat, TimeoutBackOff bp fo m =
      max (min (fo.chunkserverRPCTimeoutMS * 2 ^ min m bp.maxTimeoutPow)
            fo.chunkserverMaxRPCTimeoutMS)
          fo.chunkserverRPCTimeoutMS := by
    intro m
    simp only [TimeoutBackOff]
    rw [backoff_prod_eq _ _ _ hnov]
  refine ⟨hval n, ?_, ?_, ?_⟩
  · rw [hval n]; exact le_max_right _ _
  · rw [hval n]; exact max_le (min_le_right _ _) hbm
  · rw [hval n, hval (n + 1)]
    refine max_le_max (min_le_min ?_ le_rfl) le_rfl
    exact Nat.mul_le_mul (le_refl _)
      (Nat.pow_le_pow_right (by norm_num) (by omega))

/-- C4 witness at `n = 3` with the concrete configuration. -/
theorem timeoutBackOff_correct_witness :
    TimeoutBackOff bpW foW 3 =
      max (min (foW.chunkserverRPCTimeoutMS * 2 ^ min 3 bpW.maxTimeoutPow)
            foW.chunkserverMaxRPCTimeoutMS)
          foW.chunkserverRPCTimeoutMS
    ∧ foW.chunkserverRPCTimeoutMS ≤ TimeoutBackOff bpW foW 3
    ∧ TimeoutBackOff bpW foW 3 ≤ foW.chunkserverMaxRPCTimeoutMS
    ∧ TimeoutBackOff bpW foW 3 ≤ TimeoutBackOff bpW foW 4 :=
  timeoutBackOff_correct bpW foW (by decide) (by decide) 3

/-- C5 (amended): `OverLoadBackOff(n)` equals `s + r - s/10` clamped to
`[base_retry_interval_us, max_retry_sleep_us]`, where
`s = base * 2 ^ min(n, maxOverloadPow)` and the draw `r = rand % (s/5 + 1)`
lies in `[0, s/5]`; so the jitter `r - s/10` lies in
`[-s/10, s/5 - s/10]`, whose upper end can exceed `s/10` by one unit of
integer division (`s/5 ≤ 2 * (s/10) + 1`).  The returned sleep always lies
in `[base, max_sleep]` and the intermediate `uint64_t` wraparound cancels. -/
theorem overLoadBackOff_correct (bp : BackoffParam) (fo : FailureRequestOption)
    (n rand : Nat)
    (hbm : fo.chunkserverOPRetryIntervalUS ≤
      fo.chunkserverMaxRetrySleepIntervalUS)
    (hnov : fo.chunkserverOPRetryIntervalUS * 2 ^ bp.maxOverloadPow +
      fo.chunkserverOPRetryIntervalUS * 2 ^ bp.maxOverloadPow / 5 < U64) :
    OverLoadBackOff bp fo n rand =
      max (min (overloadBase bp fo n + overloadDraw bp fo n rand -
            overloadBase bp fo n / 10)
          fo.chunkserverMaxRetrySleepIntervalUS)
        fo.chunkserverOPRetryIntervalUS
    ∧ fo.chunkserverOPRetryIntervalUS ≤ OverLoadBackOff bp fo n rand
    ∧ OverLoadBackOff bp fo n rand ≤ fo.chunkserverMaxRetrySleepIntervalUS
    ∧ overloadDraw bp fo n rand ≤ overloadBase bp fo n / 5
    ∧ overloadBase bp fo n / 5 ≤
        overloadBase bp fo n / 10 + (overloadBase bp fo n / 10 + 1) := by
  have hS : overloadBase bp fo n ≤
      fo.chunkserverOPRetryIntervalUS * 2 ^ bp.maxOverloadPow :=
    Nat.mul_le_mul (le_refl _)
      (Nat.pow_le_pow_right (by norm_num) (min_le_right _ _))
  have h5 : overloadBase bp fo n / 5 ≤
      fo.chunkserverOPRetryIntervalUS * 2 ^ bp.maxOverloadPow / 5 :=
    Nat.div_le_div_right hS
  have hr : overloadDraw bp fo n rand < overloadBase bp fo n / 5 + 1 :=
    Nat.mod_lt _ (Nat.succ_pos _)
  have hprod :
      (fo.chunkserverOPRetryIntervalUS * (1 <<< min n bp.maxOverloadPow)) % U64
        = overloadBase bp fo n := by
    apply backoff_prod_eq
    simp only [U64] at hnov ⊢
    omega
  have hd10 : overloadBase bp fo n / 10 ≤ overloadBase bp fo n :=
    Nat.div_le_self _ _
  have hmod : (overloadBase bp fo n +
      u64sub (overloadDraw bp fo n rand) (overloadBase bp fo n / 10)) % U64
      = overloadBase bp fo n + overloadDraw bp fo n rand -
          overloadBase bp fo n / 10 := by
    simp only [u64sub, U64] at hnov ⊢
    omega
  have hkey : OverLoadBackOff bp fo n rand =
      max (min (overloadBase bp fo n + overloadDraw bp fo n rand -
            overloadBase bp fo n / 10)
          fo.chunkserverMaxRetrySleepIntervalUS)
        fo.chunkserverOPRetryIntervalUS := by
    simp only [OverLoadBackOff]
    rw [hprod]
    rw [show rand % (overloadBase bp fo n / 5 + 1) =
          overloadDraw bp fo n rand from rfl]
    rw [hmod]
  refine ⟨hkey, ?_, ?_, by omega, by omega⟩
  · rw [hkey]; exact le_max_right _ _
  · rw [hkey]; exact max_le (min_le_right _ _) hbm

/-- C5 witness at `n = 2`, `rand = 123456789` with the concrete
configuration. -/
theorem overLoadBackOff_correct_witness :
    OverLoadBackOff bpW foW 2 123456789 =
      max (min (overloadBase bpW foW 2 + overloadDraw bpW foW 2 123456789 -
            overloadBase bpW foW 2 / 10)
          foW.chunkserverMaxRetrySleepIntervalUS)
        foW.chunkserverOPRetryIntervalUS
    ∧ foW.chunkserverOPRetryIntervalUS ≤ OverLoadBackOff bpW foW 2 123456789
    ∧ OverLoadBackOff bpW foW 2 123456789 ≤
        foW.chunkserverMaxRetrySleepIntervalUS
    ∧ overloadDraw bpW foW 2 123456789 ≤ overloadBase bpW foW 2 / 5
    ∧ overloadBase bpW foW 2 / 5 ≤
        overloadBase bpW foW 2 / 10 + (overloadBase bpW foW 2 / 10 + 1) :=
  overLoadBackOff_correct bpW foW 2 123456789 (by decide) (by decide)

/-- C5 counterexample: with base interval 15 us (`s = 15`, `s/10 = 1`,
draw `rand = 3` giving `r = 3`), `OverLoadBackOff` returns `17 = s + 2`,
which no jitter in `[-s/10, +s/10]` clamped to the sleep range can produce:
the claim's jitter bound fails by one unit of integer division. -/
theorem overLoadBackOff_jitter_cex :
    ¬ ∃ j : Int, -(15 / 10 : Int) ≤ j ∧ j ≤ (15 / 10 : Int) ∧
      (OverLoadBackOff bpW fo5 0 3 : Int) =
        max (min (15 + j) 1000000000) 15 := by
  rintro ⟨j, h1, h2, h3⟩
  have hv : OverLoadBackOff bpW fo5 0 3 = 17 := by decide
  rw [hv] at h3
  norm_num at h1 h2
  interval_cases j <;> norm_num at h3

/-! ### Preservation lemmas: fields each handler leaves untouched -/

@[simp] theorem refreshLeader_pres (ctx : Ctx) (env : Env) (st : CState) :
    (ClientClosure.RefreshLeader ctx env st).retryTimes = st.retryTimes
    ∧ (ClientClosure.RefreshLeader ctx env st).errcode = st.errcode
    ∧ (ClientClosure.RefreshLeader ctx env st).seq = st.seq
    ∧ (ClientClosure.RefreshLeader ctx env st).readData = st.readData
    ∧ (ClientClosure.RefreshLeader ctx env st).eff.sendRetryCalled =
        st.eff.sendRetryCalled
    ∧ (ClientClosure.RefreshLeader ctx env st).eff.doneRun =
        st.eff.doneRun := by
  unfold ClientClosure.RefreshLeader
  rcases env.refreshGetLeaderRet <;> simp

@[simp] theorem updateLeaderWRI_pres (ctx : Ctx) (env : Env) (info : Nat)
    (st : CState) :
    (ClientClosure.UpdateLeaderWithRedirectInfo ctx env info
        st).2.retryTimes = st.retryTimes
    ∧ (ClientClosure.UpdateLeaderWithRedirectInfo ctx env info
        st).2.errcode = st.errcode
    ∧ (ClientClosure.UpdateLeaderWithRedirectInfo ctx env info
        st).2.seq = st.seq
    ∧ (ClientClosure.UpdateLeaderWithRedirectInfo ctx env info
        st).2.readData = st.readData
    ∧ (ClientClosure.UpdateLeaderWithRedirectInfo ctx env info
        st).2.eff.sendRetryCalled = st.eff.sendRetryCalled
    ∧ (ClientClosure.UpdateLeaderWithRedirectInfo ctx env info
        st).2.eff.doneRun = st.eff.doneRun := by
  unfold ClientClosure.UpdateLeaderWithRedirectInfo
  rcases env.parseResult <;> [skip; split_ifs] <;>
    [simp; simp; rcases env.getLeaderRet <;> simp]

@[simp] theorem onRedirected_pres (ctx : Ctx) (env : Env) (st : CState) :
    (ClientClosure.OnRedirected ctx env st).retryTimes = st.retryTimes
    ∧ (ClientClosure.OnRedirected ctx env st).errcode = st.errcode
    ∧ (ClientClosure.OnRedirected ctx env st).seq = st.seq
    ∧ (ClientClosure.OnRedirected ctx env st).readData = st.readData
    ∧ (ClientClosure.OnRedirected ctx env st).eff.sendRetryCalled =
        st.eff.sendRetryCalled
    ∧ (ClientClosure.OnRedirected ctx env st).eff.doneRun =
        st.eff.doneRun := by
  rcases henv : env.respRedirect with _ | info0
  · simp [ClientClosure.OnRedirected, henv]
  · simp [ClientClosure.OnRedirected, henv, apply_ite]

@[simp] theorem onSuccess_pres (ctx : Ctx) (env : Env) (st : CState) :
    (ClientClosure.OnSuccess ctx env st).retryTimes = st.retryTimes
    ∧ (ClientClosure.OnSuccess ctx env st).seq = st.seq
    ∧ (ClientClosure.OnSuccess ctx env st).eff.sendRetryCalled =
        st.eff.sendRetryCalled
    ∧ (ClientClosure.OnSuccess ctx env st).eff.doneRun = st.eff.doneRun := by
  unfold ClientClosure.OnSuccess
  rcases hop : ctx.optype <;> simp

@[simp] theorem onChunkNotExist_pres (ctx : Ctx) (status : Int) (st : CState) :
    (ClientClosure.OnChunkNotExist ctx status st).retryTimes = st.retryTimes
    ∧ (ClientClosure.OnChunkNotExist ctx status st).seq = st.seq
    ∧ (ClientClosure.OnChunkNotExist ctx status st).eff.sendRetryCalled =
        st.eff.sendRetryCalled
    ∧ (ClientClosure.OnChunkNotExist ctx status st).eff.doneRun =
        st.eff.doneRun := by
  unfold ClientClosure.OnChunkNotExist
  rcases hop : ctx.optype <;> simp

@[simp] theorem onCopysetNotExist_pres (ctx : Ctx) (env : Env) (st : CState) :
    (ClientClosure.OnCopysetNotExist ctx env st).retryTimes = st.retryTimes
    ∧ (ClientClosure.OnCopysetNotExist ctx env st).errcode = st.errcode
    ∧ (ClientClosure.OnCopysetNotExist ctx env st).seq = st.seq
    ∧ (ClientClosure.OnCopysetNotExist ctx env st).readData = st.readData
    ∧ (ClientClosure.OnCopysetNotExist ctx env st).eff.sendRetryCalled =
        st.eff.sendRetryCalled
    ∧ (ClientClosure.OnCopysetNotExist ctx env st).eff.doneRun =
        st.eff.doneRun := by
  unfold ClientClosure.OnCopysetNotExist
  simp

@[simp] theorem onBackward_pres (env : Env) (st : CState) :
    (ClientClosure.OnBackward env st).retryTimes = st.retryTimes
    ∧ (ClientClosure.OnBackward env st).errcode = st.errcode
    ∧ (ClientClosure.OnBackward env st).readData = st.readData
    ∧ (ClientClosure.OnBackward env st).eff.sendRetryCalled =
        st.eff.sendRetryCalled
    ∧ (ClientClosure.OnBackward env st).eff.doneRun = st.eff.doneRun := by
  unfold ClientClosure.OnBackward
  simp

@[simp] theorem onInvalidRequest_pres (status : Int) (st : CState) :
    (ClientClosure.OnInvalidRequest status st).retryTimes = st.retryTimes
    ∧ (ClientClosure.OnInvalidRequest status st).seq = st.seq
    ∧ (ClientClosure.OnInvalidRequest status st).readData = st.readData
    ∧ (ClientClosure.OnInvalidRequest status st).eff.sendRetryCalled =
        st.eff.sendRetryCalled
    ∧ (ClientClosure.OnInvalidRequest status st).eff.doneRun =
        st.eff.doneRun := by
  unfold ClientClosure.OnInvalidRequest
  simp

@[simp] theorem onChunkExist_pres (status : Int) (st : CState) :
    (ClientClosure.OnChunkExist status st).retryTimes = st.retryTimes
    ∧ (ClientClosure.OnChunkExist status st).seq = st.seq
    ∧ (ClientClosure.OnChunkExist status st).readData = st.readData
    ∧ (ClientClosure.OnChunkExist status st).eff.sendRetryCalled =
        st.eff.sendRetryCalled
    ∧ (ClientClosure.OnChunkExist status st).eff.doneRun =
        st.eff.doneRun := by
  unfold ClientClosure.OnChunkExist
  simp

@[simp] theorem onEpochTooOld_pres (status : Int) (st : CState) :
    (ClientClosure.OnEpochTooOld status st).retryTimes = st.retryTimes
    ∧ (ClientClosure.OnEpochTooOld status st).seq = st.seq
    ∧ (ClientClosure.OnEpochTooOld status st).readData = st.readData
    ∧ (ClientClosure.OnEpochTooOld status st).eff.sendRetryCalled =
        st.eff.sendRetryCalled
    ∧ (ClientClosure.OnEpochTooOld status st).eff.doneRun =
        st.eff.doneRun := by
  unfold ClientClosure.OnEpochTooOld
  simp

@[simp] theorem processUnstable_pres (ctx : Ctx) (env : Env) (st : CState) :
    (ClientClosure.ProcessUnstableState ctx env st).retryTimes = st.retryTimes
    ∧ (ClientClosure.ProcessUnstableState ctx env st).errcode = st.errcode
    ∧ (ClientClosure.ProcessUnstableState ctx env st).seq = st.seq
    ∧ (ClientClosure.ProcessUnstableState ctx env st).readData = st.readData
    ∧ (ClientClosure.ProcessUnstableState ctx env st).eff.sendRetryCalled =
        st.eff.sendRetryCalled
    ∧ (ClientClosure.ProcessUnstableState ctx env st).eff.doneRun =
        st.eff.doneRun := by
  unfold ClientClosure.ProcessUnstableState
  rcases env.unstableState <;> [simp; split_ifs <;> simp; simp]

@[simp] theorem onRpcFailed_pres (ctx : Ctx) (env : Env) (st : CState) :
    (ClientClosure.OnRpcFailed ctx env st).retryTimes = st.retryTimes
    ∧ (ClientClosure.OnRpcFailed ctx env st).errcode = st.errcode
    ∧ (ClientClosure.OnRpcFailed ctx env st).seq = st.seq
    ∧ (ClientClosure.OnRpcFailed ctx env st).readData = st.readData
    ∧ (ClientClosure.OnRpcFailed ctx env st).eff.sendRetryCalled =
        st.eff.sendRetryCalled
    ∧ (ClientClosure.OnRpcFailed ctx env st).eff.doneRun =
        st.eff.doneRun := by
  unfold ClientClosure.OnRpcFailed
  split_ifs <;> simp

@[simp] theorem preProcess_pres (ctx : Ctx) (env : Env)
    (rpcstatus cntlstatus : Int) (st : CState) :
    (ClientClosure.PreProcessBeforeRetry ctx env rpcstatus cntlstatus
        st).retryTimes = st.retryTimes
    ∧ (ClientClosure.PreProcessBeforeRetry ctx env rpcstatus cntlstatus
        st).errcode = st.errcode
    ∧ (ClientClosure.PreProcessBeforeRetry ctx env rpcstatus cntlstatus
        st).seq = st.seq
    ∧ (ClientClosure.PreProcessBeforeRetry ctx env rpcstatus cntlstatus
        st).readData = st.readData
    ∧ (ClientClosure.PreProcessBeforeRetry ctx env rpcstatus cntlstatus
        st).eff.sendRetryCalled = st.eff.sendRetryCalled
    ∧ (ClientClosure.PreProcessBeforeRetry ctx env rpcstatus cntlstatus
        st).eff.doneRun = st.eff.doneRun := by
  simp only [ClientClosure.PreProcessBeforeRetry]
  split_ifs <;> simp

/-- The `needRetry` flag computed by the application-status switch agrees
with the spec-side retryable predicate. -/
theorem dispatch_fst (ctx : Ctx) (env : Env) (st : CState)
    (hc : env.cntlErrorCode = 0) :
    (ClientClosure.dispatchOutcome ctx env st).1 = needRetryOf ctx env := by
  unfold ClientClosure.dispatchOutcome needRetryOf
  simp only [hc, ne_eq, not_true_eq_false, if_false]
  split_ifs <;> simp_all

/-- The application-status switch leaves the retry bookkeeping untouched. -/
theorem dispatch_pres (ctx : Ctx) (env : Env) (st : CState) :
    (ClientClosure.dispatchOutcome ctx env st).2.retryTimes = st.retryTimes
    ∧ (ClientClosure.dispatchOutcome ctx env st).2.eff.sendRetryCalled =
        st.eff.sendRetryCalled
    ∧ (ClientClosure.dispatchOutcome ctx env st).2.eff.doneRun =
        st.eff.doneRun := by
  unfold ClientClosure.dispatchOutcome
  by_cases h1 : env.respStatus = CHUNK_OP_STATUS_SUCCESS
  · simp [h1]
  by_cases h2 : env.respStatus = CHUNK_OP_STATUS_REDIRECTED
  · simp [h1, h2]
  by_cases h3 : env.respStatus = CHUNK_OP_STATUS_COPYSET_NOTEXIST
  · simp [h1, h2, h3]
  by_cases h4 : env.respStatus = CHUNK_OP_STATUS_CHUNK_NOTEXIST
  · simp [h1, h2, h3, h4]
  by_cases h5 : env.respStatus = CHUNK_OP_STATUS_INVALID_REQUEST
  · simp [h1, h2, h3, h4, h5]
  by_cases h6 : env.respStatus = CHUNK_OP_STATUS_BACKWARD
  · by_cases hw : ctx.optype = OpType.WRITE <;>
      simp [h1, h2, h3, h4, h5, h6, hw]
  by_cases h7 : env.respStatus = CHUNK_OP_STATUS_CHUNK_EXIST
  · simp [h1, h2, h3, h4, h5, h6, h7]
  by_cases h8 : env.respStatus = CHUNK_OP_STATUS_EPOCH_TOO_OLD
  · simp [h1, h2, h3, h4, h5, h6, h7, h8]
  simp_all

/-- `OnRetry` with the budget exhausted: latch the error, run the
completion. -/
theorem onRetry_exhausted (ctx : Ctx) (env : Env) (status cntlstatus : Int)
    (st : CState) (h : ctx.fo.chunkserverOPMaxRetry ≤ st.retryTimes) :
    ClientClosure.OnRetry ctx env status cntlstatus st =
      { st with errcode := status, eff.doneRun := true } := by
  unfold ClientClosure.OnRetry
  rw [if_pos h]

/-- `OnRetry` within budget: the retry is re-sent and the terminal
bookkeeping is untouched. -/
theorem onRetry_send (ctx : Ctx) (env : Env) (status cntlstatus : Int)
    (st : CState) (h : st.retryTimes < ctx.fo.chunkserverOPMaxRetry) :
    (ClientClosure.OnRetry ctx env status cntlstatus
        st).eff.sendRetryCalled = true
    ∧ (ClientClosure.OnRetry ctx env status cntlstatus st).eff.doneRun =
        st.eff.doneRun
    ∧ (ClientClosure.OnRetry ctx env status cntlstatus st).errcode =
        st.errcode
    ∧ (ClientClosure.OnRetry ctx env status cntlstatus st).seq = st.seq
    ∧ (ClientClosure.OnRetry ctx env status cntlstatus st).readData =
        st.readData := by
  unfold ClientClosure.OnRetry
  rw [if_neg (by omega)]
  split_ifs <;> simp

/-- `resize` of an empty buffer yields a zero-filled buffer. -/
theorem resizeBuf_nil (n : Nat) : resizeBuf [] n = List.replicate n 0 := by
  unfold resizeBuf
  split_ifs with h
  · have hz : n = 0 := by simpa using h
    simp [hz]
  · simp

/-- C6: in the transport-timeout branch of `PreProcessBeforeRetry`, the next
timeout is the base `chunkserverRPCTimeoutMS` when the retry count is below
`chunkserverMinRetryTimesForceTimeoutBackoff` and the leader may change, and
`TimeoutBackOff(retry count)` otherwise; no sleep is performed in this
branch. -/
theorem preProcess_timeout_correct (ctx : Ctx) (env : Env)
    (rpcstatus cntlstatus : Int) (st : CState)
    (ht : cntlstatus = brpcERPCTIMEDOUT ∨ cntlstatus = ETIMEDOUT) :
    (ClientClosure.PreProcessBeforeRetry ctx env rpcstatus cntlstatus
        st).nextTimeoutMS =
      (if st.retryTimes < ctx.fo.chunkserverMinRetryTimesForceTimeoutBackoff ∧
          env.isLeaderMayChange = true
       then ctx.fo.chunkserverRPCTimeoutMS
       else TimeoutBackOff ctx.bp ctx.fo st.retryTimes)
    ∧ (ClientClosure.PreProcessBeforeRetry ctx env rpcstatus cntlstatus
        st).eff.sleepCalls = st.eff.sleepCalls := by
  unfold ClientClosure.PreProcessBeforeRetry
  rw [if_pos ht]
  exact ⟨rfl, rfl⟩

/-- C6 witness: transport timeout (`brpc::ERPCTIMEDOUT`), retry count 0 below
the force-backoff bound but `IsLeaderMayChange` false, so the timeout backs
off exponentially. -/
theorem preProcess_timeout_correct_witness :
    (ClientClosure.PreProcessBeforeRetry ctxW envBase 0 brpcERPCTIMEDOUT
        stW).nextTimeoutMS =
      (if stW.retryTimes < ctxW.fo.chunkserverMinRetryTimesForceTimeoutBackoff ∧
          envBase.isLeaderMayChange = true
       then ctxW.fo.chunkserverRPCTimeoutMS
       else TimeoutBackOff ctxW.bp ctxW.fo stW.retryTimes)
    ∧ (ClientClosure.PreProcessBeforeRetry ctxW envBase 0 brpcERPCTIMEDOUT
        stW).eff.sleepCalls = stW.eff.sleepCalls :=
  preProcess_timeout_correct ctxW envBase 0 brpcERPCTIMEDOUT stW (Or.inl rfl)

/-- Helper: the neither-timeout-nor-overload branch of
`PreProcessBeforeRetry` in closed form. -/
theorem preProcess_else_eq (ctx : Ctx) (env : Env)
    (rpcstatus cntlstatus : Int) (st : CState)
    (h1 : cntlstatus ≠ brpcERPCTIMEDOUT) (h2 : cntlstatus ≠ ETIMEDOUT)
    (h3 : rpcstatus ≠ CHUNK_OP_STATUS_OVERLOAD) :
    ClientClosure.PreProcessBeforeRetry ctx env rpcstatus cntlstatus st =
      (if genericRetrySleep ctx.fo st.retryDirectly rpcstatus ≠ 0 then
        { st with eff.sleepCalls := st.eff.sleepCalls ++
            [genericRetrySleep ctx.fo st.retryDirectly rpcstatus] }
      else st) := by
  unfold ClientClosure.PreProcessBeforeRetry genericRetrySleep
  rw [if_neg (by tauto), if_neg h3]

/-- C8: when the previous attempt was neither a transport timeout nor an
Overload response, the pre-retry sleep is `0` when `retry_directly` is set
and otherwise the base retry interval, divided by 10 on a Redirected
outcome; the sleep primitive runs only when the computed sleep is nonzero,
and the next timeout is untouched. -/
theorem preProcess_sleep_correct (ctx : Ctx) (env : Env)
    (rpcstatus cntlstatus : Int) (st : CState)
    (h1 : cntlstatus ≠ brpcERPCTIMEDOUT) (h2 : cntlstatus ≠ ETIMEDOUT)
    (h3 : rpcstatus ≠ CHUNK_OP_STATUS_OVERLOAD) :
    (ClientClosure.PreProcessBeforeRetry ctx env rpcstatus cntlstatus
        st).eff.sleepCalls =
      st.eff.sleepCalls ++
        (if genericRetrySleep ctx.fo st.retryDirectly rpcstatus ≠ 0 then
          [genericRetrySleep ctx.fo st.retryDirectly rpcstatus]
        else [])
    ∧ (ClientClosure.PreProcessBeforeRetry ctx env rpcstatus cntlstatus
        st).nextTimeoutMS = st.nextTimeoutMS := by
  rw [preProcess_else_eq ctx env rpcstatus cntlstatus st h1 h2 h3]
  by_cases hz : genericRetrySleep ctx.fo st.retryDirectly rpcstatus = 0
  · simp [hz]
  · simp [hz]

/-- C8 witness: an Unknown application status (`FAILURE_UNKNOWN`) with
`retry_directly` unset sleeps the full base retry interval. -/
theorem preProcess_sleep_correct_witness :
    (ClientClosure.PreProcessBeforeRetry ctxW envBase
        CHUNK_OP_STATUS_FAILURE_UNKNOWN 0 stW).eff.sleepCalls =
      stW.eff.sleepCalls ++
        (if genericRetrySleep ctxW.fo stW.retryDirectly
            CHUNK_OP_STATUS_FAILURE_UNKNOWN ≠ 0 then
          [genericRetrySleep ctxW.fo stW.retryDirectly
            CHUNK_OP_STATUS_FAILURE_UNKNOWN]
        else [])
    ∧ (ClientClosure.PreProcessBeforeRetry ctxW envBase
        CHUNK_OP_STATUS_FAILURE_UNKNOWN 0 stW).nextTimeoutMS =
      stW.nextTimeoutMS :=
  preProcess_sleep_correct ctxW envBase CHUNK_OP_STATUS_FAILURE_UNKNOWN 0 stW
    (by decide) (by decide) (by decide)

/-- C7: on a Redirected attempt, a present-and-parsing hint is installed via
`UpdateLeader`; if `UpdateLeader` and the following `GetLeader` succeed,
`retry_directly` is set to whether the new leader differs from the current
chunkserver and no authoritative refresh happens; if the hint is absent or
any step fails, the engine falls through to `RefreshLeader`, which on
success sets `retry_directly` the same way and on failure leaves it
false. -/
theorem onRedirected_correct (ctx : Ctx) (env : Env) (st : CState)
    (hrd : st.retryDirectly = false)
    (hrl : st.eff.refreshLeaderCalled = false) :
    (∀ info addr, env.respRedirect = some info → env.parseResult = some addr →
      (ClientClosure.OnRedirected ctx env st).eff.updateLeaderArg = some addr
      ∧ (env.updateLeaderRet = 0 → ∀ lid, env.getLeaderRet = some lid →
          ((ClientClosure.OnRedirected ctx env st).retryDirectly = true ↔
            lid ≠ ctx.chunkserverID)
          ∧ (ClientClosure.OnRedirected ctx env
              st).eff.refreshLeaderCalled = false))
    ∧ ((env.respRedirect = none ∨ env.parseResult = none ∨
          env.updateLeaderRet ≠ 0 ∨ env.getLeaderRet = none) →
      (ClientClosure.OnRedirected ctx env st).eff.refreshLeaderCalled = true
      ∧ (∀ lid, env.refreshGetLeaderRet = some lid →
          ((ClientClosure.OnRedirected ctx env st).retryDirectly = true ↔
            lid ≠ ctx.chunkserverID))
      ∧ (env.refreshGetLeaderRet = none →
          (ClientClosure.OnRedirected ctx env st).retryDirectly = false)) := by
  unfold ClientClosure.OnRedirected ClientClosure.UpdateLeaderWithRedirectInfo
    ClientClosure.RefreshLeader
  rcases henv : env.respRedirect with _ | info0
  · rcases hg : env.refreshGetLeaderRet with _ | lid0 <;>
      simp [henv, hg, hrd]
  · rcases hp : env.parseResult with _ | addr0
    · rcases hg : env.refreshGetLeaderRet with _ | lid0 <;>
        simp [henv, hp, hg, hrd]
    · by_cases hu : env.updateLeaderRet = 0
      · rcases hl : env.getLeaderRet with _ | lid1
        · rcases hg : env.refreshGetLeaderRet with _ | lid0 <;>
            simp [henv, hp, hu, hl, hg, hrd]
        · rcases hg : env.refreshGetLeaderRet with _ | lid0 <;>
            simp [henv, hp, hu, hl, hg, hrd, hrl]
      · rcases hg : env.refreshGetLeaderRet with _ | lid0 <;>
          simp [henv, hp, hu, hg, hrd]

/-- C7 witness: hint parses to address 77, `UpdateLeader` succeeds,
`GetLeader` returns chunkserver 7 ≠ current 42: direct retry, no refresh. -/
theorem onRedirected_correct_witness :
    (∀ info addr, envRedirect.respRedirect = some info →
      envRedirect.parseResult = some addr →
      (ClientClosure.OnRedirected ctxW envRedirect
          stW).eff.updateLeaderArg = some addr
      ∧ (envRedirect.updateLeaderRet = 0 → ∀ lid,
          envRedirect.getLeaderRet = some lid →
          ((ClientClosure.OnRedirected ctxW envRedirect
              stW).retryDirectly = true ↔ lid ≠ ctxW.chunkserverID)
          ∧ (ClientClosure.OnRedirected ctxW envRedirect
              stW).eff.refreshLeaderCalled = false))
    ∧ ((envRedirect.respRedirect = none ∨ envRedirect.parseResult = none ∨
          envRedirect.updateLeaderRet ≠ 0 ∨ envRedirect.getLeaderRet = none) →
      (ClientClosure.OnRedirected ctxW envRedirect
          stW).eff.refreshLeaderCalled = true
      ∧ (∀ lid, envRedirect.refreshGetLeaderRet = some lid →
          ((ClientClosure.OnRedirected ctxW envRedirect
              stW).retryDirectly = true ↔ lid ≠ ctxW.chunkserverID))
      ∧ (envRedirect.refreshGetLeaderRet = none →
          (ClientClosure.OnRedirected ctxW envRedirect
              stW).retryDirectly = false)) :=
  onRedirected_correct ctxW envRedirect stW rfl rfl

/-- C9: a Redirected reply whose hint fails to parse makes
`UpdateLeaderWithRedirectInfo` return `-1` without touching any state (in
particular `UpdateLeader` is never called), and `OnRedirected` then falls
back to the authoritative `RefreshLeader`. -/
theorem updateLeader_parse_fail (ctx : Ctx) (env : Env) (st : CState)
    (info : Nat) (hp : env.parseResult = none) :
    (ClientClosure.UpdateLeaderWithRedirectInfo ctx env info st).1 = -1
    ∧ (ClientClosure.UpdateLeaderWithRedirectInfo ctx env info st).2 = st
    ∧ (env.respRedirect = some info →
        (ClientClosure.OnRedirected ctx env
            st).eff.refreshLeaderCalled = true) := by
  unfold ClientClosure.OnRedirected ClientClosure.UpdateLeaderWithRedirectInfo
    ClientClosure.RefreshLeader
  refine ⟨by simp [hp], by simp [hp], ?_⟩
  intro hr
  rcases hg : env.refreshGetLeaderRet with _ | lid0 <;> simp [hp, hr, hg]

/-- C9 witness: the bad-hint environment. -/
theorem updateLeader_parse_fail_witness :
    (ClientClosure.UpdateLeaderWithRedirectInfo ctxW envBadHint 5 stW).1 = -1
    ∧ (ClientClosure.UpdateLeaderWithRedirectInfo ctxW envBadHint 5 stW).2 = stW
    ∧ (envBadHint.respRedirect = some 5 →
        (ClientClosure.OnRedirected ctxW envBadHint
            stW).eff.refreshLeaderCalled = true) :=
  updateLeader_parse_fail ctxW envBadHint stW 5 rfl

/-- C1: for every completed attempt, a retry is dispatched
(`SendRetryRequest` called) exactly when the outcome is retryable and the
retry count is strictly below `chunkserverOPMaxRetry`; once the retry count
has reached `chunkserverOPMaxRetry` on a retryable outcome, the error code
is latched to the last observed status, the completion continuation runs,
and no further attempt is sent. -/
theorem retry_gate_correct (ctx : Ctx) (env : Env) (st : CState)
    (h1 : st.eff.sendRetryCalled = false) :
    (((ClientClosure.Run ctx env st).eff.sendRetryCalled = true) ↔
      (needRetryOf ctx env = true ∧
        st.retryTimes < ctx.fo.chunkserverOPMaxRetry))
    ∧ (needRetryOf ctx env = true →
        ctx.fo.chunkserverOPMaxRetry ≤ st.retryTimes →
        (ClientClosure.Run ctx env st).errcode = statusOf env
        ∧ (ClientClosure.Run ctx env st).eff.doneRun = true
        ∧ (ClientClosure.Run ctx env st).eff.sendRetryCalled = false) := by
  by_cases hc : env.cntlErrorCode = 0
  · have hrun : ClientClosure.Run ctx env st =
        (if (ClientClosure.dispatchOutcome ctx env
              { st with eff.clearTimeoutCalled := true }).1 = true then
          ClientClosure.OnRetry ctx env env.respStatus env.cntlErrorCode
            (ClientClosure.dispatchOutcome ctx env
              { st with eff.clearTimeoutCalled := true }).2
        else
          { (ClientClosure.dispatchOutcome ctx env
              { st with eff.clearTimeoutCalled := true }).2 with
              eff.doneRun := true }) := by
      unfold ClientClosure.Run
      rw [if_neg (by simp [hc])]
    have hfst := dispatch_fst ctx env
      ({ st with eff.clearTimeoutCalled := true }) hc
    have hpres := dispatch_pres ctx env
      ({ st with eff.clearTimeoutCalled := true })
    have hrt : (ClientClosure.dispatchOutcome ctx env
        { st with eff.clearTimeoutCalled := true }).2.retryTimes =
        st.retryTimes := hpres.1
    have hsr : (ClientClosure.dispatchOutcome ctx env
        { st with eff.clearTimeoutCalled := true }).2.eff.sendRetryCalled =
        false := by rw [hpres.2.1]; exact h1
    by_cases hnr : needRetryOf ctx env = true
    · rw [hrun, if_pos (by rw [hfst]; exact hnr)]
      by_cases hb : st.retryTimes < ctx.fo.chunkserverOPMaxRetry
      · have hsend := onRetry_send ctx env env.respStatus env.cntlErrorCode
          _ (by rw [hrt]; exact hb)
        constructor
        · simp [hsend.1, hnr, hb]
        · intro _ hge
          omega
      · have hex := onRetry_exhausted ctx env env.respStatus
          env.cntlErrorCode _ (by rw [hrt]; omega)
        rw [hex]
        constructor
        · simp [hsr, hb]
        · intro _ _
          refine ⟨by simp [statusOf, hc], by simp, by simp [hsr]⟩
    · rw [hrun, if_neg (by rw [hfst]; exact hnr)]
      constructor
      · simp [hsr, hnr]
      · intro h
        exact absurd h hnr
  · have hrun : ClientClosure.Run ctx env st =
        ClientClosure.OnRetry ctx env env.cntlErrorCode env.cntlErrorCode
          (ClientClosure.OnRpcFailed ctx env st) := by
      unfold ClientClosure.Run
      rw [if_pos hc]
    have hnr : needRetryOf ctx env = true := by simp [needRetryOf, hc]
    have hpres := onRpcFailed_pres ctx env st
    by_cases hb : st.retryTimes < ctx.fo.chunkserverOPMaxRetry
    · have hsend := onRetry_send ctx env env.cntlErrorCode env.cntlErrorCode
        _ (by rw [hpres.1]; exact hb)
      rw [hrun]
      constructor
      · simp [hsend.1, hnr, hb]
      · intro _ hge
        omega
    · have hex := onRetry_exhausted ctx env env.cntlErrorCode
        env.cntlErrorCode _ (by rw [hpres.1]; omega)
      rw [hrun, hex]
      constructor
      · simp [hpres.2.2.2.2.1, h1, hb]
      · intro _ _
        refine ⟨by simp [statusOf, hc], by simp,
          by simp [hpres.2.2.2.2.1, h1]⟩

/-- C1 witness: a transport timeout with the retry budget exhausted latches
the error to the transport status and completes without re-sending. -/
theorem retry_gate_correct_witness :
    (((ClientClosure.Run ctxW envTimeout stMax).eff.sendRetryCalled = true) ↔
      (needRetryOf ctxW envTimeout = true ∧
        stMax.retryTimes < ctxW.fo.chunkserverOPMaxRetry))
    ∧ (needRetryOf ctxW envTimeout = true →
        ctxW.fo.chunkserverOPMaxRetry ≤ stMax.retryTimes →
        (ClientClosure.Run ctxW envTimeout stMax).errcode = statusOf envTimeout
        ∧ (ClientClosure.Run ctxW envTimeout stMax).eff.doneRun = true
        ∧ (ClientClosure.Run ctxW envTimeout stMax).eff.sendRetryCalled =
            false) :=
  retry_gate_correct ctxW envTimeout stMax rfl

/-- C2: a ReadChunk reply with transport OK and status CHUNK_NOTEXIST
terminates without retry with error code 0 and a zero-filled buffer of the
requested length (the read buffer holds nothing before a reply installs
bytes into it). -/
theorem readChunk_hole_correct (ctx : Ctx) (env : Env) (st : CState)
    (hop : ctx.optype = OpType.READ)
    (hc : env.cntlErrorCode = 0)
    (hs : env.respStatus = CHUNK_OP_STATUS_CHUNK_NOTEXIST)
    (hbuf : st.readData = [])
    (h1 : st.eff.sendRetryCalled = false) :
    (ClientClosure.Run ctx env st).errcode = 0
    ∧ (ClientClosure.Run ctx env st).readData.length = ctx.rawlength
    ∧ (∀ b ∈ (ClientClosure.Run ctx env st).readData, b = 0)
    ∧ (ClientClosure.Run ctx env st).eff.sendRetryCalled = false
    ∧ (ClientClosure.Run ctx env st).eff.doneRun = true := by
  have hrun : ClientClosure.Run ctx env st =
      { ClientClosure.OnChunkNotExist ctx CHUNK_OP_STATUS_CHUNK_NOTEXIST
          { st with eff.clearTimeoutCalled := true } with
          eff.doneRun := true } := by
    unfold ClientClosure.Run ClientClosure.dispatchOutcome
    rw [if_neg (by simp [hc])]
    simp [hs]
  have hcne : ClientClosure.OnChunkNotExist ctx CHUNK_OP_STATUS_CHUNK_NOTEXIST
      { st with eff.clearTimeoutCalled := true } =
      { { st with eff.clearTimeoutCalled := true } with
          errcode := 0, readData := List.replicate ctx.rawlength 0 } := by
    unfold ClientClosure.OnChunkNotExist
    rw [hop]
    simp [hbuf, resizeBuf_nil]
  rw [hrun, hcne]
  refine ⟨by simp, by simp, ?_, by simp [h1], by simp⟩
  intro b hb
  simp at hb
  exact hb.2

/-- C2 witness: the concrete read request against `envNotExist`. -/
theorem readChunk_hole_correct_witness :
    (ClientClosure.Run ctxW envNotExist stW).errcode = 0
    ∧ (ClientClosure.Run ctxW envNotExist stW).readData.length = ctxW.rawlength
    ∧ (∀ b ∈ (ClientClosure.Run ctxW envNotExist stW).readData, b = 0)
    ∧ (ClientClosure.Run ctxW envNotExist stW).eff.sendRetryCalled = false
    ∧ (ClientClosure.Run ctxW envNotExist stW).eff.doneRun = true :=
  readChunk_hole_correct ctxW envNotExist stW rfl rfl rfl rfl rfl

/-- C3 (amended): on a BACKWARD application status, a WriteChunk request has
its sequence number rewritten to `metacache.GetLatestFileSn()` and is
re-sent with the other request fields unchanged; a non-WriteChunk request
terminates without retry (the completion runs), but its error code is left
at its prior value — it is NOT set to the BACKWARD status. -/
theorem backward_correct (ctx : Ctx) (env : Env) (st : CState)
    (hc : env.cntlErrorCode = 0)
    (hs : env.respStatus = CHUNK_OP_STATUS_BACKWARD) :
    (ctx.optype = OpType.WRITE →
      st.retryTimes < ctx.fo.chunkserverOPMaxRetry →
      (ClientClosure.Run ctx env st).seq = env.latestFileSn
      ∧ (ClientClosure.Run ctx env st).readData = st.readData
      ∧ (ClientClosure.Run ctx env st).errcode = st.errcode
      ∧ (ClientClosure.Run ctx env st).eff.sendRetryCalled = true)
    ∧ (ctx.optype ≠ OpType.WRITE →
      (ClientClosure.Run ctx env st).eff.sendRetryCalled =
          st.eff.sendRetryCalled
      ∧ (ClientClosure.Run ctx env st).eff.doneRun = true
      ∧ (ClientClosure.Run ctx env st).errcode = st.errcode
      ∧ (ClientClosure.Run ctx env st).seq = st.seq) := by
  constructor
  · intro hw hb
    have hrun : ClientClosure.Run ctx env st =
        ClientClosure.OnRetry ctx env CHUNK_OP_STATUS_BACKWARD
          env.cntlErrorCode
          (ClientClosure.OnBackward env
            { st with eff.clearTimeoutCalled := true }) := by
      unfold ClientClosure.Run ClientClosure.dispatchOutcome
      rw [if_neg (by simp [hc])]
      simp [hs, hw]
    have hob := onBackward_pres env ({ st with eff.clearTimeoutCalled := true })
    have hsend := onRetry_send ctx env CHUNK_OP_STATUS_BACKWARD
      env.cntlErrorCode _ (by rw [hob.1]; exact hb)
    rw [hrun]
    refine ⟨?_, ?_, ?_, hsend.1⟩
    · rw [hsend.2.2.2.1]
      simp [ClientClosure.OnBackward]
    · rw [hsend.2.2.2.2, hob.2.2.1]
    · rw [hsend.2.2.1, hob.2.1]
  · intro hw
    have hrun : ClientClosure.Run ctx env st =
        { { st with eff.clearTimeoutCalled := true } with
            eff.doneRun := true } := by
      unfold ClientClosure.Run ClientClosure.dispatchOutcome
      rw [if_neg (by simp [hc])]
      simp [hs, hw]
    rw [hrun]
    exact ⟨rfl, rfl, rfl, rfl⟩

/-- C3 witness: a WriteChunk attempt with status BACKWARD picks up the
latest file sequence number 33 and re-sends. -/
theorem backward_correct_witness :
    (ClientClosure.Run ctxWr envBackward stW).seq = envBackward.latestFileSn
    ∧ (ClientClosure.Run ctxWr envBackward stW).readData = stW.readData
    ∧ (ClientClosure.Run ctxWr envBackward stW).errcode = stW.errcode
    ∧ (ClientClosure.Run ctxWr envBackward stW).eff.sendRetryCalled = true :=
  (backward_correct ctxWr envBackward stW rfl rfl).1 rfl (by decide)

/-- C3 counterexample: a ReadChunk attempt (transport OK) with status
BACKWARD terminates with the completion invoked and no retry, but the error
code keeps its initial value `-1`; the BACKWARD status is not reported to
the caller. -/
theorem backward_nonwrite_cex :
    (ClientClosure.Run ctxW envBackward stW).errcode = -1
    ∧ (ClientClosure.Run ctxW envBackward stW).errcode ≠
        CHUNK_OP_STATUS_BACKWARD
    ∧ (ClientClosure.Run ctxW envBackward stW).eff.doneRun = true
    ∧ (ClientClosure.Run ctxW envBackward stW).eff.sendRetryCalled =
        false := by
  refine ⟨?_, ?_, ?_, ?_⟩ <;> decide

/-- C10: `IsOverLoad` returns true iff the current inflight count strictly
exceeds the configured maximum; a count exactly equal to the maximum is
reported as not overloaded. -/
theorem isOverLoad_iff (t : InflightThrottle) :
    (InflightThrottle.IsOverLoad t = true ↔
      t.maxInflightRequest < t.inflightRequestCount)
    ∧ InflightThrottle.IsOverLoad
        { inflightRequestCount := t.maxInflightRequest
          maxInflightRequest := t.maxInflightRequest } = false := by
  unfold InflightThrottle.IsOverLoad
  refine ⟨?_, by simp⟩
  split_ifs with h
  · simp only [Bool.false_eq_true, false_iff]
    omega
  · simp only [true_iff]
    omega

end CurveClient
